import Mathlib

/-!
Verification development for the Panora ticketing services
(TeamService, AccountService, ContactService, UserService,
AttachmentService, TicketService).

The TypeScript services are shallowly embedded: the Prisma store is a
`Db` record of tables (lists of rows), every service method becomes a
pure function threading the `Db`, a thrown JS error becomes the `err`
constructor of `Res`, `new Date()` and `uuidv4()` become explicit
`now` / fresh-id parameters supplied by the caller, and JSON payloads
are kept as opaque strings (the stored snapshot text is passed through
unparsed, standing for the parsed value).
-/

namespace Panora

/-- JS runtime errors thrown by the services: `ReferenceError(msg)` and
`Error(msg)` are thrown explicitly by the code; `typeError` stands for the
runtime TypeError raised when a property of a `null` query result is read. -/
inductive JsError where
  | referenceError (msg : String)
  | error (msg : String)
  | typeError (msg : String)
deriving DecidableEq, Repr

/-! ### Base64 encoding (Buffer.from(s).toString with base64) -/

/-- UTF-8 bytes of one character, as used by Buffer.from on a JS string. -/
def utf8Bytes (c : Char) : List Nat :=
  let n := c.toNat
  if n < 0x80 then [n]
  else if n < 0x800 then
    [0xC0 ||| (n >>> 6), 0x80 ||| (n &&& 0x3F)]
  else if n < 0x10000 then
    [0xE0 ||| (n >>> 12), 0x80 ||| ((n >>> 6) &&& 0x3F), 0x80 ||| (n &&& 0x3F)]
  else
    [0xF0 ||| (n >>> 18), 0x80 ||| ((n >>> 12) &&& 0x3F),
     0x80 ||| ((n >>> 6) &&& 0x3F), 0x80 ||| (n &&& 0x3F)]

/-- UTF-8 byte sequence of a string. -/
def strBytes (s : String) : List Nat :=
  s.data.foldr (fun c acc => utf8Bytes c ++ acc) []

/-- The standard base64 alphabet. -/
def base64Chars : List Char :=
  "ABCDEFGHIJKLMNOPQRSTUVWXYZabcdefghijklmnopqrstuvwxyz0123456789+/".data

/-- Look up one base64 digit. -/
def b64Char (n : Nat) : Char := base64Chars.getD n 'A'

/-- Encode a byte list in base64, three bytes per group, with padding. -/
def base64Group : List Nat → List Char
  | [] => []
  | [a] =>
    [b64Char (a >>> 2), b64Char ((a &&& 0x3) <<< 4), '=', '=']
  | [a, b] =>
    [b64Char (a >>> 2), b64Char (((a &&& 0x3) <<< 4) ||| (b >>> 4)),
     b64Char ((b &&& 0xF) <<< 2), '=']
  | a :: b :: c :: rest =>
    b64Char (a >>> 2) :: b64Char (((a &&& 0x3) <<< 4) ||| (b >>> 4)) ::
    b64Char (((b &&& 0xF) <<< 2) ||| (c >>> 6)) :: b64Char (c &&& 0x3F) ::
    base64Group rest

/-- Base64 encoding of a string, as Buffer.from(s).toString produces. -/
def base64Encode (s : String) : String :=
  ⟨base64Group (strBytes s)⟩

/-! ### Store rows (Prisma tables) -/

/-- Row of the linked_users table. -/
structure LinkedUser where
  id_linked_user : String
  id_project : String
deriving DecidableEq, Repr

/-- Row of the tcg_tickets table. -/
structure Ticket where
  id_tcg_ticket : String
  name : String
  status : Option String
  priority : Option String
  source : Option String
  remote_id : Option String
  id_connection : String
  created_at : Nat
  modified_at : Nat
deriving DecidableEq, Repr

/-- Row of the tcg_attachments table. -/
structure Attachment where
  id_tcg_attachment : String
  file_name : String
  file_url : Option String
  uploader : String
  remote_id : Option String
  id_connection : String
  id_tcg_comment : Option String
  id_tcg_ticket : Option String
  created_at : Nat
  modified_at : Nat
deriving DecidableEq, Repr

/-- Row of the tcg_teams table. -/
structure Team where
  id_tcg_team : String
  name : String
  description : Option String
  remote_id : Option String
  id_connection : String
  created_at : Nat
  modified_at : Nat
deriving DecidableEq, Repr

/-- Row of the tcg_accounts table. -/
structure Account where
  id_tcg_account : String
  name : String
  domains : List String
  remote_id : Option String
  id_connection : String
  created_at : Nat
  modified_at : Nat
deriving DecidableEq, Repr

/-- Row of the tcg_contacts table. -/
structure Contact where
  id_tcg_contact : String
  name : String
  email_address : String
  details : Option String
  phone_number : Option String
  remote_id : Option String
  id_connection : String
  created_at : Nat
  modified_at : Nat
deriving DecidableEq, Repr

/-- Row of the tcg_users table. -/
structure User where
  id_tcg_user : String
  name : String
  email_address : String
  teams : List String
  remote_id : Option String
  id_connection : String
  created_at : Nat
  modified_at : Nat
deriving DecidableEq, Repr

/-- Custom-field value row: the value table joined with its attribute
(slug) and entity (ressource_owner_id), as the services query it. -/
structure ValueRow where
  ressource_owner_id : String
  slug : String
  data : String
deriving DecidableEq, Repr

/-- Row of the remote_data table: the raw provider snapshot of a record.
The JSON text is kept unparsed (opaque). -/
structure RemoteDataRow where
  ressource_owner_id : String
  data : String
deriving DecidableEq, Repr

/-- Row of the events table (audit events). -/
structure Event where
  id_event : String
  id_connection : String
  id_project : String
  status : String
  type : String
  method : String
  url : String
  provider : String
  direction : String
  timestamp : Nat
  id_linked_user : String
deriving DecidableEq, Repr

/-- One dispatch handed to the webhook notifier. -/
structure WebhookDispatch where
  recordId : String
  eventType : String
  projectId : String
  eventId : String
deriving DecidableEq, Repr

/-- The persistent store plus the dispatch queue of the webhook notifier. -/
structure Db where
  linked_users : List LinkedUser := []
  tcg_tickets : List Ticket := []
  tcg_attachments : List Attachment := []
  tcg_teams : List Team := []
  tcg_accounts : List Account := []
  tcg_contacts : List Contact := []
  tcg_users : List User := []
  values : List ValueRow := []
  remote_data : List RemoteDataRow := []
  events : List Event := []
  webhook_dispatches : List WebhookDispatch := []
deriving DecidableEq, Repr

/-- Result of a service call: the value or the thrown error, together
with the store as left behind by the call (throws do not roll back
writes that already happened). -/
inductive Res (α : Type) where
  | ok (val : α) (db : Db)
  | err (e : JsError) (db : Db)
deriving DecidableEq, Repr

/-- Whether a call succeeded. -/
def resIsOk {α : Type} : Res α → Bool
  | .ok _ _ => true
  | .err _ _ => false

/-- The returned value of a successful call. -/
def resVal? {α : Type} : Res α → Option α
  | .ok v _ => some v
  | .err _ _ => none

/-- The store left behind by a call. -/
def resDb {α : Type} : Res α → Db
  | .ok _ db => db
  | .err _ db => db

/-! ### Shared helpers (field mappings, ordering, pagination, enrichment) -/

/-- JS Map.set: overwrite the value in place if the key is present,
otherwise append the pair. -/
def mapSet (m : List (String × String)) (k v : String) : List (String × String) :=
  if m.any (fun p => p.1 == k) then
    m.map (fun p => if p.1 == k then (k, v) else p)
  else m ++ [(k, v)]

/-- The fieldMappingsMap each service builds: forEach over the fetched
value rows, inserting slug to data into a Map, read back as entries. -/
def buildFieldMappings (vs : List ValueRow) : List (String × String) :=
  vs.foldl (fun m v => mapSet m v.slug v.data) []

/-- Value rows owned by one record. -/
def valuesFor (db : Db) (ownerId : String) : List ValueRow :=
  db.values.filter (fun v => v.ressource_owner_id == ownerId)

/-- Stable insertion into a list sorted by the created key ascending. -/
def insertByCreated {α : Type} (created : α → Nat) (x : α) : List α → List α
  | [] => [x]
  | y :: ys =>
    if created x < created y then x :: y :: ys
    else y :: insertByCreated created x ys

/-- Stable sort by creation time ascending (Prisma orderBy created_at asc). -/
def sortByCreated {α : Type} (created : α → Nat) (l : List α) : List α :=
  l.foldl (fun acc x => insertByCreated created x acc) []

/-- The findMany of every list endpoint: order the rows of the connection
by created_at ascending, position at the cursor row (inclusive, as a
Prisma cursor is) or at the start, and take limit + 1 rows. -/
def pageFetch {α : Type} (getId : α → String) (created : α → Nat)
    (rowsForConn : List α) (limit : Nat) (cursor : Option String) : List α :=
  let sorted := sortByCreated created rowsForConn
  let started := match cursor with
    | some c => sorted.dropWhile (fun r => getId r != c)
    | none => sorted
  started.take (limit + 1)

/-- When exactly limit + 1 rows came back, the last row becomes the base64
next cursor and is popped from the page; otherwise next_cursor is null. -/
def splitPage {α : Type} (getId : α → String) (limit : Nat) (fetched : List α) :
    List α × Option String :=
  match (if fetched.length == limit + 1 then fetched.getLast? else none) with
  | some lastRow => (fetched.dropLast, some (base64Encode (getId lastRow)))
  | none => (fetched, none)

/-- Cursor validation of every list endpoint: a supplied cursor must be the
id of a row of the connection, else the call throws before fetching. -/
def cursorInvalid {α : Type} (table : List α) (getId : α → String)
    (getConn : α → String) (connection_id : String) (cursor : Option String) : Bool :=
  match cursor with
  | some c => (table.find? (fun r => getConn r == connection_id && getId r == c)).isNone
  | none => false

/-- Attach the raw snapshot to one unified record: findFirst on remote_data
by owner id, then read resp.data. A missing row makes the code read the
data property of null, a TypeError. -/
def attachRemoteData {α : Type} (getId : α → String) (setRd : α → String → α)
    (db : Db) (out : α) : Except JsError α :=
  match db.remote_data.find? (fun r => r.ressource_owner_id == getId out) with
  | none => .error (.typeError "Cannot read properties of null (reading data)")
  | some r => .ok (setRd out r.data)

/-- Promise.all of the per-record snapshot enrichment: all succeed or the
whole call rejects. -/
def attachRemoteDataList {α : Type} (getId : α → String) (setRd : α → String → α)
    (db : Db) : List α → Except JsError (List α)
  | [] => .ok []
  | x :: xs =>
    match attachRemoteData getId setRd db x with
    | .error e => .error e
    | .ok y =>
      match attachRemoteDataList getId setRd db xs with
      | .error e => .error e
      | .ok ys => .ok (y :: ys)

/-- Build one audit event row as prisma.events.create receives it. -/
def mkEvent (id_event connection_id project_id status ty method url provider
    linkedUserId : String) (now : Nat) : Event :=
  { id_event := id_event, id_connection := connection_id,
    id_project := project_id, status := status, type := ty, method := method,
    url := url, provider := provider, direction := "0", timestamp := now,
    id_linked_user := linkedUserId }

/-- Append an audit event to the store. -/
def pushEvent (e : Event) (db : Db) : Db :=
  { db with events := db.events ++ [e] }

/-- Modelled from the spec: WebhookService.dispatchWebhook is not under
src/. The spec describes the webhook fan-out as a fire-and-forget notifier
whose failures are swallowed/logged only and never surfaced as operation
failure, so the dispatch is handed off (recorded here) and a downstream
delivery failure is only logged: the call itself never throws, whatever
the delivery outcome passed as deliveryFails. -/
def dispatchWebhook (recordId eventType projectId eventId : String)
    (_deliveryFails : Bool) (db : Db) : Db :=
  { db with webhook_dispatches := db.webhook_dispatches ++
      [{ recordId := recordId, eventType := eventType, projectId := projectId,
         eventId := eventId }] }

/-! ### Unified output shapes -/

/-- UnifiedTicketingTeamOutput. -/
structure TeamOutput where
  id : String
  name : String
  description : Option String
  field_mappings : List (String × String)
  remote_id : Option String
  created_at : Nat
  modified_at : Nat
  remote_data : Option String := none
deriving DecidableEq, Repr

/-- UnifiedTicketingAccountOutput. -/
structure AccountOutput where
  id : String
  name : String
  domains : List String
  field_mappings : List (String × String)
  remote_id : Option String
  created_at : Nat
  modified_at : Nat
  remote_data : Option String := none
deriving DecidableEq, Repr

/-- UnifiedTicketingContactOutput. -/
structure ContactOutput where
  id : String
  email_address : String
  name : String
  details : Option String
  phone_number : Option String
  field_mappings : List (String × String)
  remote_id : Option String
  created_at : Nat
  modified_at : Nat
  remote_data : Option String := none
deriving DecidableEq, Repr

/-- UnifiedTicketingAttachmentOutput; comment_id and ticket_id are added
only when set on the row. -/
structure AttachmentOutput where
  id : String
  file_name : String
  file_url : Option String
  uploader : String
  field_mappings : List (String × String)
  remote_id : Option String
  created_at : Nat
  modified_at : Nat
  comment_id : Option String := none
  ticket_id : Option String := none
  remote_data : Option String := none
deriving DecidableEq, Repr

/-- UnifiedTicketingTicketOutput as the re-read of a stored ticket builds it. -/
structure TicketOutput where
  id : String
  name : String
  status : Option String
  priority : Option String
  source : Option String
  field_mappings : List (String × String)
  remote_id : Option String
  created_at : Nat
  modified_at : Nat
  remote_data : Option String := none
deriving DecidableEq, Repr

/-- Page shape returned by every list endpoint. -/
structure ListPage (α : Type) where
  data : List α
  prev_cursor : Option String
  next_cursor : Option String
deriving DecidableEq, Repr

/-- Unify one team row with its field mappings. -/
def unifyTeamRow (db : Db) (team : Team) : TeamOutput :=
  { id := team.id_tcg_team, name := team.name, description := team.description,
    field_mappings := buildFieldMappings (valuesFor db team.id_tcg_team),
    remote_id := team.remote_id, created_at := team.created_at,
    modified_at := team.modified_at }

/-- Unify one account row with its field mappings. -/
def unifyAccountRow (db : Db) (account : Account) : AccountOutput :=
  { id := account.id_tcg_account, name := account.name,
    domains := account.domains,
    field_mappings := buildFieldMappings (valuesFor db account.id_tcg_account),
    remote_id := account.remote_id, created_at := account.created_at,
    modified_at := account.modified_at }

/-- Unify one contact row with its field mappings. -/
def unifyContactRow (db : Db) (contact : Contact) : ContactOutput :=
  { id := contact.id_tcg_contact, email_address := contact.email_address,
    name := contact.name, details := contact.details,
    phone_number := contact.phone_number,
    field_mappings := buildFieldMappings (valuesFor db contact.id_tcg_contact),
    remote_id := contact.remote_id, created_at := contact.created_at,
    modified_at := contact.modified_at }

/-- Unify one attachment row with its field mappings; comment_id and
ticket_id come along exactly when set on the row. -/
def unifyAttachmentRow (db : Db) (a : Attachment) : AttachmentOutput :=
  { id := a.id_tcg_attachment, file_name := a.file_name, file_url := a.file_url,
    uploader := a.uploader,
    field_mappings := buildFieldMappings (valuesFor db a.id_tcg_attachment),
    remote_id := a.remote_id, created_at := a.created_at,
    modified_at := a.modified_at,
    comment_id := a.id_tcg_comment, ticket_id := a.id_tcg_ticket }

/-! ### TeamService -/

/-- TeamService.getTeam: findUnique by id, throw if absent, merge field
mappings, optionally attach the raw snapshot (reading resp.data even when
no snapshot row exists), then log one pull event. -/
def getTeam (id_ticketing_team linkedUserId integrationId connection_id
    project_id : String) (remote_data : Bool) (newEventId : String) (now : Nat)
    (db : Db) : Res TeamOutput :=
  match db.tcg_teams.find? (fun t => t.id_tcg_team == id_ticketing_team) with
  | none =>
    .err (.error ("Team with id " ++ id_ticketing_team ++ " not found")) db
  | some team =>
    let unifiedTeam := unifyTeamRow db team
    match (if remote_data then
        attachRemoteData (fun o => o.id)
          (fun o d => { o with remote_data := some d }) db unifiedTeam
      else .ok unifiedTeam) with
    | .error e => .err e db
    | .ok res =>
      let db2 := pushEvent (mkEvent newEventId connection_id project_id
        "success" "ticketing.team.pull" "GET" "/ticketing/team" integrationId
        linkedUserId now) db
      .ok res db2

/-- TeamService.getTeams: validate the cursor, fetch limit + 1 rows of the
connection ordered by created_at ascending from the cursor, pop the extra
row into the base64 next_cursor, base64 the supplied cursor into
prev_cursor, unify each row, optionally enrich with raw snapshots, then
log one pull event. -/
def getTeams (connection_id project_id integrationId linkedUserId : String)
    (limit : Nat) (remote_data : Bool) (cursor : Option String)
    (newEventId : String) (now : Nat) (db : Db) : Res (ListPage TeamOutput) :=
  if cursorInvalid db.tcg_teams (fun t => t.id_tcg_team)
      (fun t => t.id_connection) connection_id cursor then
    .err (.referenceError "The provided cursor does not exist!") db
  else
    let fetched := pageFetch (fun t => t.id_tcg_team) (fun t => t.created_at)
      (db.tcg_teams.filter (fun t => t.id_connection == connection_id))
      limit cursor
    let split := splitPage (fun t => t.id_tcg_team) limit fetched
    let prev_cursor := cursor.map base64Encode
    let unifiedTeams := split.1.map (unifyTeamRow db)
    match (if remote_data then
        attachRemoteDataList (fun o => o.id)
          (fun o d => { o with remote_data := some d }) db unifiedTeams
      else .ok unifiedTeams) with
    | .error e => .err e db
    | .ok res =>
      let db2 := pushEvent (mkEvent newEventId connection_id project_id
        "success" "ticketing.team.pull" "GET" "/ticketing/teams" integrationId
        linkedUserId now) db
      .ok { data := res, prev_cursor := prev_cursor, next_cursor := split.2 } db2

/-! ### AccountService -/

/-- AccountService.getAccount: findUnique by id; a missing row is only
logged as a warning and the code falls through to read
account.id_tcg_account of the null row, a TypeError; otherwise merge
field mappings, optionally attach the raw snapshot (reading resp.data even
when no snapshot row exists), then log one pull event. -/
def getAccount (id_ticketing_account integrationId linkedUserId connection_id
    project_id : String) (remote_data : Bool) (newEventId : String) (now : Nat)
    (db : Db) : Res AccountOutput :=
  match db.tcg_accounts.find? (fun a => a.id_tcg_account == id_ticketing_account) with
  | none =>
    .err (.typeError "Cannot read properties of null (reading id_tcg_account)") db
  | some account =>
    let unifiedAccount := unifyAccountRow db account
    match (if remote_data then
        attachRemoteData (fun o => o.id)
          (fun o d => { o with remote_data := some d }) db unifiedAccount
      else .ok unifiedAccount) with
    | .error e => .err e db
    | .ok res =>
      let db2 := pushEvent (mkEvent newEventId connection_id project_id
        "success" "ticketing.account.pull" "GET" "/ticketing/account"
        integrationId linkedUserId now) db
      .ok res db2

/-- AccountService.getAccounts: same list pipeline as getTeams over the
tcg_accounts table. -/
def getAccounts (connection_id project_id integrationId linkedUserId : String)
    (limit : Nat) (remote_data : Bool) (cursor : Option String)
    (newEventId : String) (now : Nat) (db : Db) : Res (ListPage AccountOutput) :=
  if cursorInvalid db.tcg_accounts (fun a => a.id_tcg_account)
      (fun a => a.id_connection) connection_id cursor then
    .err (.referenceError "The provided cursor does not exist!") db
  else
    let fetched := pageFetch (fun a => a.id_tcg_account) (fun a => a.created_at)
      (db.tcg_accounts.filter (fun a => a.id_connection == connection_id))
      limit cursor
    let split := splitPage (fun a => a.id_tcg_account) limit fetched
    let prev_cursor := cursor.map base64Encode
    let unifiedAccounts := split.1.map (unifyAccountRow db)
    match (if remote_data then
        attachRemoteDataList (fun o => o.id)
          (fun o d => { o with remote_data := some d }) db unifiedAccounts
      else .ok unifiedAccounts) with
    | .error e => .err e db
    | .ok res =>
      let db2 := pushEvent (mkEvent newEventId connection_id project_id
        "success" "ticketing.account.pull" "GET" "/ticketing/accounts"
        integrationId linkedUserId now) db
      .ok { data := res, prev_cursor := prev_cursor, next_cursor := split.2 } db2

/-! ### ContactService -/

/-- ContactService.getContact: findUnique by id; a missing row is only
logged as a warning and the code falls through to read
contact.id_tcg_contact of the null row, a TypeError; otherwise like
getTeam, with one pull event. -/
def getContact (id_ticketing_contact linkedUserId integrationId connection_id
    project_id : String) (remote_data : Bool) (newEventId : String) (now : Nat)
    (db : Db) : Res ContactOutput :=
  match db.tcg_contacts.find? (fun c => c.id_tcg_contact == id_ticketing_contact) with
  | none =>
    .err (.typeError "Cannot read properties of null (reading id_tcg_contact)") db
  | some contact =>
    let unifiedContact := unifyContactRow db contact
    match (if remote_data then
        attachRemoteData (fun o => o.id)
          (fun o d => { o with remote_data := some d }) db unifiedContact
      else .ok unifiedContact) with
    | .error e => .err e db
    | .ok res =>
      let db2 := pushEvent (mkEvent newEventId connection_id project_id
        "success" "ticketing.contact.pull" "GET" "/ticketing/contact"
        integrationId linkedUserId now) db
      .ok res db2

/-- ContactService.getContacts: same list pipeline as getTeams over the
tcg_contacts table. -/
def getContacts (connection_id project_id integrationId linkedUserId : String)
    (limit : Nat) (remote_data : Bool) (cursor : Option String)
    (newEventId : String) (now : Nat) (db : Db) : Res (ListPage ContactOutput) :=
  if cursorInvalid db.tcg_contacts (fun c => c.id_tcg_contact)
      (fun c => c.id_connection) connection_id cursor then
    .err (.referenceError "The provided cursor does not exist!") db
  else
    let fetched := pageFetch (fun c => c.id_tcg_contact) (fun c => c.created_at)
      (db.tcg_contacts.filter (fun c => c.id_connection == connection_id))
      limit cursor
    let split := splitPage (fun c => c.id_tcg_contact) limit fetched
    let prev_cursor := cursor.map base64Encode
    let unifiedContacts := split.1.map (unifyContactRow db)
    match (if remote_data then
        attachRemoteDataList (fun o => o.id)
          (fun o d => { o with remote_data := some d }) db unifiedContacts
      else .ok unifiedContacts) with
    | .error e => .err e db
    | .ok res =>
      let db2 := pushEvent (mkEvent newEventId connection_id project_id
        "success" "ticketing.contact.pull" "GET" "/ticketing/contacts"
        integrationId linkedUserId now) db
      .ok { data := res, prev_cursor := prev_cursor, next_cursor := split.2 } db2

/-! ### AttachmentService -/

/-- UnifiedTicketingAttachmentInput as addAttachment consumes it. -/
structure UnifiedAttachmentInput where
  file_name : String
deriving DecidableEq, Repr

/-- AttachmentService.getAttachment: findUnique by id, throw
ReferenceError if absent, merge field mappings, optionally attach the raw
snapshot (reading resp.data even when no snapshot row exists), and log a
pull event only when both linkedUserId and integrationId were supplied. -/
def getAttachment (id_ticketing_attachment : String)
    (linkedUserId integrationId : Option String)
    (connection_id project_id : String) (remote_data : Bool)
    (newEventId : String) (now : Nat) (db : Db) : Res AttachmentOutput :=
  match db.tcg_attachments.find?
      (fun a => a.id_tcg_attachment == id_ticketing_attachment) with
  | none => .err (.referenceError "Attachment not found") db
  | some attachment =>
    let unifiedAttachment := unifyAttachmentRow db attachment
    match (if remote_data then
        attachRemoteData (fun o => o.id)
          (fun o d => { o with remote_data := some d }) db unifiedAttachment
      else .ok unifiedAttachment) with
    | .error e => .err e db
    | .ok res =>
      let db2 := match linkedUserId, integrationId with
        | some lu, some integ =>
          pushEvent (mkEvent newEventId connection_id project_id "success"
            "ticketing.attachment.pull" "GET" "/ticketing/attachment"
            integ lu now) db
        | _, _ => db
      .ok res db2

/-- AttachmentService.getAttachments: the list pipeline of getTeams over
tcg_attachments, except that the returned data array is the un-enriched
unifiedAttachments even when the remote_data enrichment was computed. -/
def getAttachments (connection_id project_id integrationId linkedUserId : String)
    (limit : Nat) (remote_data : Bool) (cursor : Option String)
    (newEventId : String) (now : Nat) (db : Db) : Res (ListPage AttachmentOutput) :=
  if cursorInvalid db.tcg_attachments (fun a => a.id_tcg_attachment)
      (fun a => a.id_connection) connection_id cursor then
    .err (.referenceError "The provided cursor does not exist!") db
  else
    let fetched := pageFetch (fun a => a.id_tcg_attachment)
      (fun a => a.created_at)
      (db.tcg_attachments.filter (fun a => a.id_connection == connection_id))
      limit cursor
    let split := splitPage (fun a => a.id_tcg_attachment) limit fetched
    let prev_cursor := cursor.map base64Encode
    let unifiedAttachments := split.1.map (unifyAttachmentRow db)
    match (if remote_data then
        attachRemoteDataList (fun o => o.id)
          (fun o d => { o with remote_data := some d }) db unifiedAttachments
      else .ok unifiedAttachments) with
    | .error e => .err e db
    | .ok _res =>
      let db2 := pushEvent (mkEvent newEventId connection_id project_id
        "success" "ticketing.attachment.pull" "GET" "/ticketing/attachments"
        integrationId linkedUserId now) db
      .ok { data := unifiedAttachments, prev_cursor := prev_cursor,
            next_cursor := split.2 } db2

/-- AttachmentService.addAttachment: validate the linked user, then upsert
keyed on findFirst by (file_name, id_connection) — update file_name,
uploader and modified_at of the found row, else create a row with a fresh
id — re-read through getAttachment (no event there, both caller ids are
undefined), log one push event and dispatch one webhook. -/
def addAttachment (unifiedAttachmentData : UnifiedAttachmentInput)
    (connection_id integrationId linkedUserId project_id : String)
    (remote_data : Bool) (webhookDeliveryFails : Bool)
    (newAttachmentId newEventId : String) (now : Nat) (db : Db) :
    Res AttachmentOutput :=
  match db.linked_users.find? (fun u => u.id_linked_user == linkedUserId) with
  | none => .err (.referenceError "Linked User Not Found") db
  | some linkedUser =>
    let found := db.tcg_attachments.find?
      (fun a => a.file_name == unifiedAttachmentData.file_name &&
                a.id_connection == connection_id)
    let step : String × Db := match found with
      | some existingAttachment =>
        (existingAttachment.id_tcg_attachment,
         { db with tcg_attachments := db.tcg_attachments.map (fun a =>
             if a.id_tcg_attachment == existingAttachment.id_tcg_attachment then
               { a with file_name := unifiedAttachmentData.file_name,
                        uploader := linkedUserId, modified_at := now }
             else a) })
      | none =>
        (newAttachmentId,
         { db with tcg_attachments := db.tcg_attachments ++
             [{ id_tcg_attachment := newAttachmentId,
                file_name := unifiedAttachmentData.file_name,
                file_url := none, uploader := linkedUserId, remote_id := none,
                id_connection := connection_id, id_tcg_comment := none,
                id_tcg_ticket := none, created_at := now, modified_at := now }] })
    match getAttachment step.1 none none connection_id project_id remote_data
        newEventId now step.2 with
    | .err e dbE => .err e dbE
    | .ok result_attachment db2 =>
      let event := mkEvent newEventId connection_id project_id "success"
        "ticketing.attachment.push" "POST" "/ticketing/attachments"
        integrationId linkedUserId now
      let db3 := pushEvent event db2
      let db4 := dispatchWebhook result_attachment.id
        "ticketing.attachment.created" linkedUser.id_project event.id_event
        webhookDeliveryFails db3
      .ok result_attachment db4

/-! ### TicketService -/

/-- Opaque provider-native payload produced by desunify. -/
def ProviderPayload := String
deriving instance DecidableEq, Repr for ProviderPayload

/-- Opaque raw provider response body (OriginalTicketOutput). -/
def OriginalTicket := String
deriving instance DecidableEq, Repr for OriginalTicket

/-- The connector response: statusCode plus the raw body. -/
structure ApiResp where
  statusCode : Nat
  data : OriginalTicket
deriving DecidableEq, Repr

/-- Opaque custom-field-mapping descriptors handed to the unification
engine (the field-mapping store itself is an external collaborator). -/
def CustomFieldMappings := List (String × String)
deriving instance DecidableEq, Repr for CustomFieldMappings

/-- UnifiedTicketingTicketInput as addTicket consumes it. Attachments are
modelled in their existing-id form (a list of attachment ids); the raw
payload branch is resolved through the attachment sub-orchestrator
(registry saveToDb), which is not under src/. -/
structure UnifiedTicketInput where
  name : String
  status : Option String := none
  priority : Option String := none
  source : Option String := none
  account_id : Option String := none
  contact_id : Option String := none
  assigned_to : Option (List String) := none
  attachments : Option (List String) := none
  field_mappings : Option (List (String × String)) := none
deriving DecidableEq, Repr

/-- UnifiedTicketingTicketOutput as the unification engine returns it from
a provider response (the target_ticket handed to saveOrUpdateTicket). -/
structure UnifiedTicket where
  name : String
  status : Option String := none
  priority : Option String := none
  source : Option String := none
  remote_id : Option String := none
  field_mappings : Option (List (String × String)) := none
deriving DecidableEq, Repr

/-- TicketService.validateLinkedUser: findUnique, throw if absent. -/
def validateLinkedUser (linkedUserId : String) (db : Db) :
    Except JsError LinkedUser :=
  match db.linked_users.find? (fun u => u.id_linked_user == linkedUserId) with
  | none => .error (.referenceError "Linked User Not Found")
  | some u => .ok u

/-- TicketService.validateAccountId: only checks when an account id was
supplied (an absent id skips the check). -/
def validateAccountId (accountId : Option String) (db : Db) :
    Except JsError Unit :=
  match accountId with
  | none => .ok ()
  | some aid =>
    if (db.tcg_accounts.find? (fun a => a.id_tcg_account == aid)).isSome then
      .ok ()
    else .error (.referenceError "You inserted an account_id which does not exist")

/-- TicketService.validateContactId: only checks when a contact id was
supplied. -/
def validateContactId (contactId : Option String) (db : Db) :
    Except JsError Unit :=
  match contactId with
  | none => .ok ()
  | some cid =>
    if (db.tcg_contacts.find? (fun c => c.id_tcg_contact == cid)).isSome then
      .ok ()
    else .error (.referenceError "You inserted a contact_id which does not exist")

/-- The Promise.all over the assignee list: every element is looked up in
tcg_users and any missing one rejects the whole validation. -/
def checkAssignees (l : List String) (db : Db) : Except JsError Unit :=
  match l with
  | [] => .ok ()
  | a :: rest =>
    if (db.tcg_users.find? (fun u => u.id_tcg_user == a)).isSome then
      checkAssignees rest db
    else .error (.referenceError "You inserted an assignee which does not exist")

/-- TicketService.validateAssignees: skipped when the list is absent or
empty, otherwise every element is checked. -/
def validateAssignees (assignees : Option (List String)) (db : Db) :
    Except JsError Unit :=
  match assignees with
  | none => .ok ()
  | some l => if l.length > 0 then checkAssignees l db else .ok ()

/-- The Promise.all over the attachment-id list of processAttachments. -/
def checkAttachmentIds (l : List String) (db : Db) : Except JsError Unit :=
  match l with
  | [] => .ok ()
  | a :: rest =>
    if (db.tcg_attachments.find? (fun x => x.id_tcg_attachment == a)).isSome then
      checkAttachmentIds rest db
    else .error (.referenceError "You inserted an attachment_id which does not exist")

/-- TicketService.processAttachments, existing-id branch: each supplied
attachment id must exist, and the ids are returned unchanged; an absent or
empty list yields the empty list. -/
def processAttachments (attachments : Option (List String)) (db : Db) :
    Except JsError (List String) :=
  match attachments with
  | none => .ok []
  | some l =>
    if l.length > 0 then
      match checkAttachmentIds l db with
      | .error e => .error e
      | .ok _ => .ok l
    else .ok []

/-- The findFirst filter of saveOrUpdateTicket:
where remote_id = ticket.remote_id and id_connection = connection_id.
An absent remote_id is an undefined Prisma filter, which Prisma drops. -/
def ticketMatches (ticket : UnifiedTicket) (connection_id : String)
    (t : Ticket) : Bool :=
  (match ticket.remote_id with
   | some rid => t.remote_id == some rid
   | none => true)
  && t.id_connection == connection_id

/-- TicketService.saveOrUpdateTicket: findFirst by
(remote_id, id_connection); when found, update the row with the data
object — whose spread includes the freshly generated id_tcg_ticket — and
return the previously read id; else create the row with the fresh id
(created_at filled by the store at creation; the Prisma schema is not
under src/). -/
def saveOrUpdateTicket (ticket : UnifiedTicket) (connection_id : String)
    (newId : String) (now : Nat) (db : Db) : Res String :=
  match db.tcg_tickets.find? (ticketMatches ticket connection_id) with
  | some existingTicket =>
    .ok existingTicket.id_tcg_ticket
      { db with tcg_tickets := db.tcg_tickets.map (fun t =>
          if t.id_tcg_ticket == existingTicket.id_tcg_ticket then
            { t with id_tcg_ticket := newId, modified_at := now,
                     name := ticket.name, status := ticket.status,
                     priority := ticket.priority, source := ticket.source,
                     remote_id := ticket.remote_id,
                     id_connection := connection_id }
          else t) }
  | none =>
    .ok newId
      { db with tcg_tickets := db.tcg_tickets ++
          [{ id_tcg_ticket := newId, name := ticket.name,
             status := ticket.status, priority := ticket.priority,
             source := ticket.source, remote_id := ticket.remote_id,
             id_connection := connection_id, created_at := now,
             modified_at := now }] }

/-- Modelled from the spec: IngestDataService.processFieldMappings is not
under src/. Spec 4.2 step 8: persist the overlay fields against the
(possibly new) internal id; overlay rows are unique per (record_id, slug)
and replaced alongside each sync cycle. -/
def processFieldMappings (fm : Option (List (String × String)))
    (recordId : String) (db : Db) : Db :=
  match fm with
  | none => db
  | some l =>
    { db with values :=
        (db.values.filter (fun v => v.ressource_owner_id != recordId) ++
          l.map (fun p => { ressource_owner_id := recordId, slug := p.1,
                            data := p.2 })) }

/-- Modelled from the spec: IngestDataService.processRemoteData is not
under src/. Spec 3: at most one current snapshot per record, replaced each
sync cycle. -/
def processRemoteData (recordId : String) (sourceData : String) (db : Db) : Db :=
  { db with remote_data :=
      db.remote_data.filter (fun r => r.ressource_owner_id != recordId) ++
      [{ ressource_owner_id := recordId, data := sourceData }] }

/-- Modelled from the spec: TicketService.getTicket is not under src/
(addTicket re-reads the stored record through it, spec 4.2 step 9 and
4.3): fail NotFound if absent, always merge overlay fields, attach the
latest raw snapshot when requested treating a missing snapshot as
always-optional (spec 9), and log one conditional pull event, mirroring
the in-src AttachmentService.getAttachment shape (addTicket passes both
caller ids as undefined, so no event). -/
def getTicket (id : String) (linkedUserId integrationId : Option String)
    (connection_id project_id : String) (remote_data : Bool)
    (newEventId : String) (now : Nat) (db : Db) : Res TicketOutput :=
  match db.tcg_tickets.find? (fun t => t.id_tcg_ticket == id) with
  | none => .err (.referenceError "Ticket not found") db
  | some t =>
    let out : TicketOutput :=
      { id := t.id_tcg_ticket, name := t.name, status := t.status,
        priority := t.priority, source := t.source,
        field_mappings := buildFieldMappings (valuesFor db t.id_tcg_ticket),
        remote_id := t.remote_id, created_at := t.created_at,
        modified_at := t.modified_at }
    let out2 := if remote_data then
        match db.remote_data.find?
            (fun r => r.ressource_owner_id == t.id_tcg_ticket) with
        | some r => { out with remote_data := some r.data }
        | none => out
      else out
    let db2 := match linkedUserId, integrationId with
      | some lu, some integ =>
        pushEvent (mkEvent newEventId connection_id project_id "success"
          "ticketing.ticket.pull" "GET" "/ticketing/ticket" integ lu now) db
      | _, _ => db
    .ok out2 db2

/-- TicketService.addTicket: validate the linked user and every referenced
account, contact and assignee, resolve the attachments, desunify, call the
provider connector, unify the response, upsert by (remote_id,
id_connection), persist overlay fields and raw snapshot, re-read the
record, log one push event (success iff the connector returned 201) and
dispatch one webhook with the hydrated record. The unification engine and
the connector are external collaborators passed in as pure functions
(spec 4.1 and 6). -/
def addTicket
    (desunify : UnifiedTicketInput → CustomFieldMappings → ProviderPayload)
    (serviceAddTicket : ProviderPayload → String → ApiResp)
    (unify : OriginalTicket → CustomFieldMappings → UnifiedTicket)
    (customFieldMappings : CustomFieldMappings)
    (unifiedTicketData : UnifiedTicketInput)
    (connection_id integrationId linkedUserId project_id : String)
    (remote_data : Bool) (webhookDeliveryFails : Bool)
    (newTicketId newEventId : String) (now : Nat) (db : Db) : Res TicketOutput :=
  match validateLinkedUser linkedUserId db with
  | .error e => .err e db
  | .ok linkedUser =>
    match validateAccountId unifiedTicketData.account_id db with
    | .error e => .err e db
    | .ok _ =>
      match validateContactId unifiedTicketData.contact_id db with
      | .error e => .err e db
      | .ok _ =>
        match validateAssignees unifiedTicketData.assigned_to db with
        | .error e => .err e db
        | .ok _ =>
          match processAttachments unifiedTicketData.attachments db with
          | .error e => .err e db
          | .ok processedAttachments =>
            let inputData :=
              { unifiedTicketData with attachments := some processedAttachments }
            let desunifiedObject := desunify inputData
              (if inputData.field_mappings.isSome then customFieldMappings else [])
            let resp := serviceAddTicket desunifiedObject linkedUserId
            let target_ticket := unify resp.data customFieldMappings
            match saveOrUpdateTicket target_ticket connection_id newTicketId
                now db with
            | .err e db1 => .err e db1
            | .ok unique_ticketing_ticket_id db1 =>
              let db2 := processFieldMappings target_ticket.field_mappings
                unique_ticketing_ticket_id db1
              let db3 := processRemoteData unique_ticketing_ticket_id resp.data db2
              match getTicket unique_ticketing_ticket_id none none
                  connection_id project_id remote_data newEventId now db3 with
              | .err e db4 => .err e db4
              | .ok result_ticket db4 =>
                let status_resp :=
                  if resp.statusCode == 201 then "success" else "fail"
                let event := mkEvent newEventId connection_id project_id
                  status_resp "ticketing.ticket.push" "PUSH"
                  "/ticketing/tickets" integrationId linkedUserId now
                let db5 := pushEvent event db4
                let db6 := dispatchWebhook result_ticket.id
                  "ticketing.ticket.created" linkedUser.id_project
                  event.id_event webhookDeliveryFails db5
                .ok result_ticket db6

/-! ### Concrete fixtures for evaluation theorems -/

/-- A team r1 of connection c, created first. -/
def teamR1 : Team :=
  { id_tcg_team := "r1", name := "T1", description := none,
    remote_id := some "x1", id_connection := "c", created_at := 1,
    modified_at := 1 }

/-- A team r2 of connection c, created second. -/
def teamR2 : Team :=
  { id_tcg_team := "r2", name := "T2", description := none,
    remote_id := some "x2", id_connection := "c", created_at := 2,
    modified_at := 2 }

/-- A store holding exactly teams r1 and r2 of connection c. -/
def dbTwoTeams : Db := { tcg_teams := [teamR1, teamR2] }

/-- An account a1 of connection c. -/
def acctA1 : Account :=
  { id_tcg_account := "a1", name := "Acme", domains := [],
    remote_id := some "xa", id_connection := "c", created_at := 1,
    modified_at := 1 }

/-- A store holding team r1 and account a1 but no raw snapshot rows. -/
def dbNoSnapshots : Db := { tcg_teams := [teamR1], tcg_accounts := [acctA1] }

/-- The linked user every push fixture uses. -/
def luRow : LinkedUser := { id_linked_user := "lu1", id_project := "p1" }

/-- A stored attachment of connection c with file a.txt and no remote id. -/
def attA1 : Attachment :=
  { id_tcg_attachment := "a1", file_name := "a.txt", file_url := none,
    uploader := "lu0", remote_id := none, id_connection := "c",
    id_tcg_comment := none, id_tcg_ticket := none, created_at := 1,
    modified_at := 1 }

/-- A store holding the linked user and attachment a1. -/
def dbOneAttachment : Db := { linked_users := [luRow], tcg_attachments := [attA1] }

/-- The unified ticket the connector response of the push fixtures
unifies to: remote id rt-1. -/
def tkRt1 : UnifiedTicket :=
  { name := "Bug", priority := some "high", remote_id := some "rt-1" }

/-- A store holding attachment a1 together with its raw snapshot row. -/
def dbAttachmentWithSnapshot : Db :=
  { linked_users := [luRow], tcg_attachments := [attA1],
    remote_data := [{ ressource_owner_id := "a1", data := "raw" }] }

/-- A stored ticket t1 of connection c with remote id rt-1. -/
def tkStored : Ticket :=
  { id_tcg_ticket := "t1", name := "Old", status := none, priority := none,
    source := none, remote_id := some "rt-1", id_connection := "c",
    created_at := 10, modified_at := 10 }

/-- A store holding exactly the stored ticket t1. -/
def dbTicketStored : Db := { tcg_tickets := [tkStored] }

/-- A store holding two contacts k1 and k2 of connection c. -/
def dbTwoContacts : Db :=
  { tcg_contacts :=
      [{ id_tcg_contact := "k1", name := "N1", email_address := "n1@x.io",
         details := none, phone_number := none, remote_id := some "y1",
         id_connection := "c", created_at := 1, modified_at := 1 },
       { id_tcg_contact := "k2", name := "N2", email_address := "n2@x.io",
         details := none, phone_number := none, remote_id := some "y2",
         id_connection := "c", created_at := 2, modified_at := 2 }] }

/-! ### Helper lemmas -/

/-- Attaching a snapshot keeps the record id when the setter does. -/
theorem attachRemoteData_id {α : Type} (getId : α → String)
    (setRd : α → String → α) (hpres : ∀ x d, getId (setRd x d) = getId x)
    (db : Db) (x y : α) (h : attachRemoteData getId setRd db x = .ok y) :
    getId y = getId x := by
  unfold attachRemoteData at h
  cases hf : db.remote_data.find? (fun r => r.ressource_owner_id == getId x) with
  | none => rw [hf] at h; exact absurd h (by simp)
  | some r =>
    rw [hf] at h
    injection h with h2
    rw [← h2]
    exact hpres x r.data

/-- The snapshot enrichment of a page keeps the list of record ids when
the setter keeps each id. -/
theorem attachRemoteDataList_map_id {α : Type} (getId : α → String)
    (setRd : α → String → α) (hpres : ∀ x d, getId (setRd x d) = getId x)
    (db : Db) : ∀ (l l2 : List α),
    attachRemoteDataList getId setRd db l = .ok l2 →
    l2.map getId = l.map getId := by
  intro l
  induction l with
  | nil => intro l2 h; unfold attachRemoteDataList at h; injection h with h2; rw [← h2]
  | cons x xs ih =>
    intro l2 h
    unfold attachRemoteDataList at h
    cases h1 : attachRemoteData getId setRd db x with
    | error e => rw [h1] at h; exact absurd h (by simp)
    | ok y =>
      rw [h1] at h
      cases h2 : attachRemoteDataList getId setRd db xs with
      | error e => rw [h2] at h; exact absurd h (by simp)
      | ok ys =>
        rw [h2] at h
        injection h with h3
        rw [← h3]
        simp only [List.map_cons]
        rw [attachRemoteData_id getId setRd hpres db x y h1, ih ys h2]

/-- Reading splitPage off as the pair of its page and its next cursor. -/
theorem splitPage_eq {α : Type} (getId : α → String) (limit : Nat)
    (fetched : List α) :
    splitPage getId limit fetched =
      ((if fetched.length == limit + 1 then fetched.dropLast else fetched),
       (if fetched.length == limit + 1 then
          (fetched.getLast?).map (fun r => base64Encode (getId r))
        else none)) := by
  unfold splitPage
  by_cases h : fetched.length == limit + 1
  · rw [if_pos h, if_pos h, if_pos h]
    cases hl : fetched.getLast? with
    | none =>
      rw [List.getLast?_eq_none_iff] at hl
      subst hl
      simp at h
    | some lastRow => simp
  · rw [if_neg h, if_neg h, if_neg h]

/-- A single-attachment read with no caller ids and no snapshot request
returns the unified row of the first stored attachment with the id and
writes nothing. -/
theorem getAttachment_found_nord (id conn proj eid : String) (now : Nat)
    (db : Db) (a : Attachment)
    (h : db.tcg_attachments.find? (fun x => x.id_tcg_attachment == id) = some a) :
    getAttachment id none none conn proj false eid now db
      = Res.ok (unifyAttachmentRow db a) db := by
  simp [getAttachment, h]

/-! ### Theorems -/

/-- Claim C1: for records r1..rN in creation order and any limit k in
[1,N], iterating list via the returned nextCursor until null is claimed to
yield exactly r1..rN. On the code this fails at the second call: the first
page over teams r1, r2 with limit 1 returns r1 and the base64-encoded
next_cursor cjI= (the encoding of r2), but a supplied cursor is matched
raw against record ids without decoding, so passing cjI= back throws
InvalidCursor and the iteration can never reach r2 — while the raw id r2
itself would be accepted and would complete the iteration. -/
theorem c1_next_cursor_round_trip_fails :
    ((resVal? (getTeams "c" "p" "zendesk" "lu1" 1 false none "e1" 100
        dbTwoTeams)).map (fun p => (p.data.map (fun o => o.id), p.next_cursor))
      = some (["r1"], some "cjI="))
    ∧ getTeams "c" "p" "zendesk" "lu1" 1 false (some "cjI=") "e1" 100 dbTwoTeams
      = Res.err (.referenceError "The provided cursor does not exist!") dbTwoTeams
    ∧ ((resVal? (getTeams "c" "p" "zendesk" "lu1" 1 false (some "r2") "e1" 100
        dbTwoTeams)).map (fun p => (p.data.map (fun o => o.id), p.next_cursor))
      = some (["r2"], none)) := by
  refine ⟨?_, ?_, ?_⟩ <;> decide

/-- Claim C2: pushing the same provider response twice for the same
(remote_id, connection_id) is claimed to leave the internal id and
created_at unchanged while modified_at advances. On the code the second
push does keep one record, keep created_at 10 and advance modified_at to
20, but the update spreads the data object, whose id_tcg_ticket is the
freshly generated uuid, so the internal id is rewritten from t1 to t2 —
and the call still returns the stale id t1, which no longer names any
stored record. -/
theorem c2_second_push_rewrites_internal_id :
    ((resDb (saveOrUpdateTicket tkRt1 "c" "t1" 10 {})).tcg_tickets.map
        (fun t => (t.id_tcg_ticket, t.created_at, t.modified_at))
      = [("t1", 10, 10)])
    ∧ (resVal? (saveOrUpdateTicket tkRt1 "c" "t2" 20
        (resDb (saveOrUpdateTicket tkRt1 "c" "t1" 10 {}))) = some "t1")
    ∧ ((resDb (saveOrUpdateTicket tkRt1 "c" "t2" 20
        (resDb (saveOrUpdateTicket tkRt1 "c" "t1" 10 {})))).tcg_tickets.map
        (fun t => (t.id_tcg_ticket, t.created_at, t.modified_at))
      = [("t2", 10, 20)]) := by
  refine ⟨?_, ?_, ?_⟩ <;> decide

/-- Claim C3, counterexample: the claim says every push-cycle upsert
locates the existing record by (remote_id, connection_id). The stored
attachment a1 has exactly the (remote_id, connection_id) pair of an
attachment push into connection c — none, as addAttachment creates rows
without a remote id — yet pushing file b.txt creates a second record
instead of updating a1, while pushing file a.txt updates in place: the
attachment upsert is keyed by (file_name, id_connection). -/
theorem c3_attachment_upsert_key_counterexample :
    (dbOneAttachment.tcg_attachments.map (fun a => (a.remote_id, a.id_connection))
      = [(none, "c")])
    ∧ ((resDb (addAttachment { file_name := "b.txt" } "c" "zendesk" "lu1" "p1"
        false false "a2" "e1" 5 dbOneAttachment)).tcg_attachments.length = 2)
    ∧ ((resDb (addAttachment { file_name := "a.txt" } "c" "zendesk" "lu1" "p1"
        false false "a2" "e1" 5 dbOneAttachment)).tcg_attachments.length = 1) := by
  refine ⟨?_, ?_, ?_⟩ <;> decide

/-- Claim C4: a single-record get on an absent id is claimed to fail
NotFound. AttachmentService and TeamService do throw their not-found
errors, but AccountService and ContactService only log a warning on the
missing row and fall through to dereference it, failing with a TypeError
instead of the claimed NotFound. -/
theorem c4_get_missing_record_behaviour :
    getAttachment "missing" (some "lu1") (some "zendesk") "c" "p" false "e1" 5 {}
      = Res.err (.referenceError "Attachment not found") {}
    ∧ getTeam "missing" "lu1" "zendesk" "c" "p" false "e1" 5 {}
      = Res.err (.error "Team with id missing not found") {}
    ∧ getAccount "missing" "zendesk" "lu1" "c" "p" false "e1" 5 {}
      = Res.err (.typeError "Cannot read properties of null (reading id_tcg_account)") {}
    ∧ getContact "missing" "lu1" "zendesk" "c" "p" false "e1" 5 {}
      = Res.err (.typeError "Cannot read properties of null (reading id_tcg_contact)") {} := by
  refine ⟨?_, ?_, ?_, ?_⟩ <;> decide

/-- Claim C6: a read requesting the raw snapshot on a record with no
stored snapshot is claimed to succeed with the snapshot omitted. On the
code both cited paths crash instead: with remote_data requested and no
remote_data row, getTeam and getAccount read the data property of the
null findFirst result, a TypeError, and no event is written. -/
theorem c6_missing_snapshot_crashes :
    getTeam "r1" "lu1" "zendesk" "c" "p" true "e1" 5 dbNoSnapshots
      = Res.err (.typeError "Cannot read properties of null (reading data)")
          dbNoSnapshots
    ∧ getAccount "a1" "zendesk" "lu1" "c" "p" true "e1" 5 dbNoSnapshots
      = Res.err (.typeError "Cannot read properties of null (reading data)")
          dbNoSnapshots := by
  refine ⟨?_, ?_⟩ <;> decide

/-- Claim C8: a list call whose supplied cursor does not resolve to a
record within the connection scope throws InvalidCursor (the
ReferenceError of the services) before fetching any page, leaving the
store — in particular the audit events — untouched, for the cited
TeamService.getTeams and AccountService.getAccounts. -/
theorem c8_invalid_cursor_rejected_before_fetch :
    (∀ (connection_id project_id integrationId linkedUserId c
          newEventId : String) (limit : Nat) (remote_data : Bool) (now : Nat)
        (db : Db),
      db.tcg_teams.find?
          (fun t => t.id_connection == connection_id && t.id_tcg_team == c)
        = none →
      getTeams connection_id project_id integrationId linkedUserId limit
          remote_data (some c) newEventId now db
        = Res.err (.referenceError "The provided cursor does not exist!") db)
    ∧ (∀ (connection_id project_id integrationId linkedUserId c
          newEventId : String) (limit : Nat) (remote_data : Bool) (now : Nat)
        (db : Db),
      db.tcg_accounts.find?
          (fun a => a.id_connection == connection_id && a.id_tcg_account == c)
        = none →
      getAccounts connection_id project_id integrationId linkedUserId limit
          remote_data (some c) newEventId now db
        = Res.err (.referenceError "The provided cursor does not exist!") db) := by
  constructor
  · intro conn proj integ lu c eid limit rd now db h
    simp [getTeams, cursorInvalid, h]
  · intro conn proj integ lu c eid limit rd now db h
    simp [getAccounts, cursorInvalid, h]

/-- Witness for C8: on a store with no teams and no accounts, the cursor
zzz is rejected with InvalidCursor by both list endpoints and nothing is
written. -/
theorem c8_invalid_cursor_rejected_before_fetch_witness :
    getTeams "c" "p" "zendesk" "lu1" 1 false (some "zzz") "e1" 7 {}
      = Res.err (.referenceError "The provided cursor does not exist!") {}
    ∧ getAccounts "c" "p" "zendesk" "lu1" 1 false (some "zzz") "e1" 7 {}
      = Res.err (.referenceError "The provided cursor does not exist!") {} :=
  ⟨c8_invalid_cursor_rejected_before_fetch.1 "c" "p" "zendesk" "lu1" "zzz"
      "e1" 1 false 7 {} (by decide),
   c8_invalid_cursor_rejected_before_fetch.2 "c" "p" "zendesk" "lu1" "zzz"
      "e1" 1 false 7 {} (by decide)⟩

/-- Claim C5: when the push cycle would succeed, a failing webhook
delivery changes nothing about the outcome: addTicket returns the same
successful result — the hydrated record — whatever the delivery outcome,
because the notifier is fire-and-forget and only logs a failure
(dispatchWebhook, modelled from the spec, never throws). -/
theorem c5_webhook_failure_not_surfaced
    (desunify : UnifiedTicketInput → CustomFieldMappings → ProviderPayload)
    (serviceAddTicket : ProviderPayload → String → ApiResp)
    (unify : OriginalTicket → CustomFieldMappings → UnifiedTicket)
    (customFieldMappings : CustomFieldMappings) (input : UnifiedTicketInput)
    (connection_id integrationId linkedUserId project_id : String)
    (remote_data : Bool) (newTicketId newEventId : String) (now : Nat)
    (db : Db)
    (hOk : resIsOk (addTicket desunify serviceAddTicket unify
        customFieldMappings input connection_id integrationId linkedUserId
        project_id remote_data false newTicketId newEventId now db) = true) :
    resIsOk (addTicket desunify serviceAddTicket unify customFieldMappings
        input connection_id integrationId linkedUserId project_id remote_data
        true newTicketId newEventId now db) = true
    ∧ addTicket desunify serviceAddTicket unify customFieldMappings input
        connection_id integrationId linkedUserId project_id remote_data true
        newTicketId newEventId now db
      = addTicket desunify serviceAddTicket unify customFieldMappings input
          connection_id integrationId linkedUserId project_id remote_data false
          newTicketId newEventId now db :=
  ⟨hOk, rfl⟩

/-- Witness for C5: the scenario-A push — empty connection, a connector
echoing a created response with status 201 — succeeds identically when the
webhook delivery fails. -/
theorem c5_webhook_failure_not_surfaced_witness :
    resIsOk (addTicket (fun _ _ => "payload")
        (fun _ _ => { statusCode := 201, data := "raw-rt-1" })
        (fun _ _ => tkRt1) [] { name := "Bug", priority := some "high" }
        "c" "zendesk" "lu1" "p1" false true "t1" "e1" 10
        { linked_users := [luRow] }) = true
    ∧ addTicket (fun _ _ => "payload")
        (fun _ _ => { statusCode := 201, data := "raw-rt-1" })
        (fun _ _ => tkRt1) [] { name := "Bug", priority := some "high" }
        "c" "zendesk" "lu1" "p1" false true "t1" "e1" 10
        { linked_users := [luRow] }
      = addTicket (fun _ _ => "payload")
          (fun _ _ => { statusCode := 201, data := "raw-rt-1" })
          (fun _ _ => tkRt1) [] { name := "Bug", priority := some "high" }
          "c" "zendesk" "lu1" "p1" false false "t1" "e1" 10
          { linked_users := [luRow] } :=
  c5_webhook_failure_not_surfaced (fun _ _ => "payload")
    (fun _ _ => { statusCode := 201, data := "raw-rt-1" })
    (fun _ _ => tkRt1) [] { name := "Bug", priority := some "high" }
    "c" "zendesk" "lu1" "p1" false "t1" "e1" 10 { linked_users := [luRow] }
    (by decide)

/-- A missing assignee anywhere in the list rejects the whole assignee
validation with the ReferenceError of checkAssignees. -/
theorem checkAssignees_missing (db : Db) :
    ∀ (l : List String) (a : String), a ∈ l →
    db.tcg_users.find? (fun u => u.id_tcg_user == a) = none →
    checkAssignees l db
      = .error (.referenceError "You inserted an assignee which does not exist") := by
  intro l
  induction l with
  | nil => intro a ha _; cases ha
  | cons x xs ih =>
    intro a ha hf
    rcases List.mem_cons.mp ha with h | h
    · subst h
      simp [checkAssignees, hf]
    · by_cases hx : (db.tcg_users.find? (fun u => u.id_tcg_user == x)).isSome = true
      · simp only [checkAssignees, if_pos hx]
        exact ih a h hf
      · simp only [checkAssignees, if_neg hx]

/-- The assignee validation accepts exactly when every listed assignee
exists in tcg_users: every element is checked, none is skipped. -/
theorem checkAssignees_ok_iff (db : Db) : ∀ (l : List String),
    checkAssignees l db = .ok () ↔
      ∀ a ∈ l, (db.tcg_users.find? (fun u => u.id_tcg_user == a)).isSome = true := by
  intro l
  induction l with
  | nil => simp [checkAssignees]
  | cons x xs ih =>
    by_cases hx : (db.tcg_users.find? (fun u => u.id_tcg_user == x)).isSome = true
    · simp only [checkAssignees, if_pos hx, ih, List.forall_mem_cons]
      exact ⟨fun h => ⟨hx, h⟩, fun h => h.2⟩
    · simp only [checkAssignees, if_neg hx]
      exact ⟨fun h => absurd h (by simp),
             fun h => absurd (h x (List.mem_cons_self x xs)) hx⟩

/-- Claim C9: addTicket with an assigned_to list containing a nonexistent
user id fails with the assignee ReferenceError — whatever the other
validations say about earlier list elements — and leaves the store
untouched: no record creation, no audit event, no webhook dispatch. The
second conjunct shows the list-valued reference is checked exhaustively:
the validation accepts exactly when every listed assignee exists. -/
theorem c9_missing_assignee_rejected :
    (∀ (desunify : UnifiedTicketInput → CustomFieldMappings → ProviderPayload)
        (serviceAddTicket : ProviderPayload → String → ApiResp)
        (unify : OriginalTicket → CustomFieldMappings → UnifiedTicket)
        (customFieldMappings : CustomFieldMappings)
        (input : UnifiedTicketInput)
        (connection_id integrationId linkedUserId project_id : String)
        (remote_data webhookDeliveryFails : Bool)
        (newTicketId newEventId : String) (now : Nat) (db : Db)
        (u : LinkedUser) (l : List String) (a : String),
      validateLinkedUser linkedUserId db = .ok u →
      validateAccountId input.account_id db = .ok () →
      validateContactId input.contact_id db = .ok () →
      input.assigned_to = some l →
      a ∈ l →
      db.tcg_users.find? (fun x => x.id_tcg_user == a) = none →
      addTicket desunify serviceAddTicket unify customFieldMappings input
          connection_id integrationId linkedUserId project_id remote_data
          webhookDeliveryFails newTicketId newEventId now db
        = Res.err
            (.referenceError "You inserted an assignee which does not exist") db)
    ∧ (∀ (l : List String) (db : Db),
        checkAssignees l db = .ok () ↔
          ∀ a ∈ l,
            (db.tcg_users.find? (fun x => x.id_tcg_user == a)).isSome = true) := by
  constructor
  · intro desu svc uni cfm input conn integ lu proj rd wf tid eid now db u l a
      h1 h2 h3 h4 ha hf
    have hlen : l.length > 0 := List.length_pos.mpr (List.ne_nil_of_mem ha)
    have hva : validateAssignees input.assigned_to db
        = .error (.referenceError "You inserted an assignee which does not exist") := by
      rw [h4]
      simp only [validateAssignees, if_pos hlen]
      exact checkAssignees_missing db l a ha hf
    simp [addTicket, h1, h2, h3, hva]
  · intro l db
    exact checkAssignees_ok_iff db l

/-- Witness for C9: a push whose only assignee u-missing does not exist is
rejected with the assignee ReferenceError and the store is unchanged. -/
theorem c9_missing_assignee_rejected_witness :
    addTicket (fun _ _ => "payload")
        (fun _ _ => { statusCode := 201, data := "raw-rt-1" })
        (fun _ _ => tkRt1) []
        { name := "Bug", assigned_to := some ["u-missing"] }
        "c" "zendesk" "lu1" "p1" false false "t1" "e1" 10
        { linked_users := [luRow] }
      = Res.err (.referenceError "You inserted an assignee which does not exist")
          { linked_users := [luRow] } :=
  c9_missing_assignee_rejected.1 (fun _ _ => "payload")
    (fun _ _ => { statusCode := 201, data := "raw-rt-1" })
    (fun _ _ => tkRt1) [] { name := "Bug", assigned_to := some ["u-missing"] }
    "c" "zendesk" "lu1" "p1" false false "t1" "e1" 10
    { linked_users := [luRow] } luRow ["u-missing"] "u-missing"
    rfl rfl rfl rfl (by simp) rfl

/-- Claim C10: whenever getAttachments succeeds with remote_data
requested, its returned page is identical to the page of the same call
without remote_data — the raw-snapshot enrichment is computed (and can
still fail) but the un-enriched unifiedAttachments array is what the data
field carries — and no returned attachment carries a remote_data value. -/
theorem c10_attachment_list_ignores_enrichment :
    ∀ (connection_id project_id integrationId linkedUserId newEventId : String)
      (limit : Nat) (cursor : Option String) (now : Nat) (db : Db),
    resIsOk (getAttachments connection_id project_id integrationId
        linkedUserId limit true cursor newEventId now db) = true →
    getAttachments connection_id project_id integrationId linkedUserId limit
        false cursor newEventId now db
      = getAttachments connection_id project_id integrationId linkedUserId
          limit true cursor newEventId now db
    ∧ (resVal? (getAttachments connection_id project_id integrationId
          linkedUserId limit true cursor newEventId now db)).map
        (fun p => p.data.all (fun a => a.remote_data == none)) = some true := by
  intro conn proj integ lu eid limit cursor now db h
  by_cases hc : cursorInvalid db.tcg_attachments (fun a => a.id_tcg_attachment)
      (fun a => a.id_connection) conn cursor = true
  · simp [getAttachments, hc, resIsOk] at h
  · cases hE : attachRemoteDataList (fun o => o.id)
        (fun o d => { o with remote_data := some d }) db
        ((splitPage (fun a => a.id_tcg_attachment) limit
          (pageFetch (fun a => a.id_tcg_attachment) (fun a => a.created_at)
            (db.tcg_attachments.filter (fun a => a.id_connection == conn))
            limit cursor)).1.map (unifyAttachmentRow db)) with
    | error e => simp [getAttachments, hc, hE, resIsOk] at h
    | ok res =>
      constructor
      · simp [getAttachments, hc, hE]
      · simp [getAttachments, hc, hE, resVal?, List.all_map, unifyAttachmentRow]

/-- Witness for C10: on a store with one attachment and its snapshot, the
list call with remote_data requested succeeds and returns the very result
of the call without it, with no remote_data on the returned record. -/
theorem c10_attachment_list_ignores_enrichment_witness :
    getAttachments "c" "p" "zendesk" "lu1" 1 false none "e1" 9
        dbAttachmentWithSnapshot
      = getAttachments "c" "p" "zendesk" "lu1" 1 true none "e1" 9
          dbAttachmentWithSnapshot
    ∧ (resVal? (getAttachments "c" "p" "zendesk" "lu1" 1 true none "e1" 9
          dbAttachmentWithSnapshot)).map
        (fun p => p.data.all (fun a => a.remote_data == none)) = some true :=
  c10_attachment_list_ignores_enrichment "c" "p" "zendesk" "lu1" "e1" 1 none 9
    dbAttachmentWithSnapshot (by decide)

/-- Claim C7: every successful list call fetched limit + 1 rows of the
connection in creation-time ascending order starting at the supplied
cursor inclusively (or from the start when absent — pageFetch); when
exactly limit + 1 rows came back the last row is dropped from the page and
its id, in the base64 cursor-token encoding, becomes next_cursor,
otherwise next_cursor is null; prev_cursor is the base64 encoding of the
cursor exactly as the caller supplied it, or null. Stated for the cited
TeamService.getTeams and ContactService.getContacts. -/
theorem c7_list_page_mechanics :
    (∀ (connection_id project_id integrationId linkedUserId newEventId : String)
        (limit : Nat) (remote_data : Bool) (cursor : Option String) (now : Nat)
        (db : Db),
      resIsOk (getTeams connection_id project_id integrationId linkedUserId
          limit remote_data cursor newEventId now db) = true →
      (let F := pageFetch (fun t => t.id_tcg_team) (fun t => t.created_at)
          (db.tcg_teams.filter (fun t => t.id_connection == connection_id))
          limit cursor
       ((resVal? (getTeams connection_id project_id integrationId linkedUserId
            limit remote_data cursor newEventId now db)).map
          (fun p => p.data.map (fun o => o.id))
         = some ((if F.length == limit + 1 then F.dropLast else F).map
             (fun t => t.id_tcg_team)))
       ∧ ((resVal? (getTeams connection_id project_id integrationId
            linkedUserId limit remote_data cursor newEventId now db)).map
            (fun p => p.next_cursor)
         = some (if F.length == limit + 1 then
               F.getLast?.map (fun t => base64Encode t.id_tcg_team)
             else none))
       ∧ ((resVal? (getTeams connection_id project_id integrationId
            linkedUserId limit remote_data cursor newEventId now db)).map
            (fun p => p.prev_cursor)
         = some (cursor.map base64Encode))))
    ∧ (∀ (connection_id project_id integrationId linkedUserId newEventId : String)
        (limit : Nat) (remote_data : Bool) (cursor : Option String) (now : Nat)
        (db : Db),
      resIsOk (getContacts connection_id project_id integrationId linkedUserId
          limit remote_data cursor newEventId now db) = true →
      (let F := pageFetch (fun c => c.id_tcg_contact) (fun c => c.created_at)
          (db.tcg_contacts.filter (fun c => c.id_connection == connection_id))
          limit cursor
       ((resVal? (getContacts connection_id project_id integrationId
            linkedUserId limit remote_data cursor newEventId now db)).map
          (fun p => p.data.map (fun o => o.id))
         = some ((if F.length == limit + 1 then F.dropLast else F).map
             (fun c => c.id_tcg_contact)))
       ∧ ((resVal? (getContacts connection_id project_id integrationId
            linkedUserId limit remote_data cursor newEventId now db)).map
            (fun p => p.next_cursor)
         = some (if F.length == limit + 1 then
               F.getLast?.map (fun c => base64Encode c.id_tcg_contact)
             else none))
       ∧ ((resVal? (getContacts connection_id project_id integrationId
            linkedUserId limit remote_data cursor newEventId now db)).map
            (fun p => p.prev_cursor)
         = some (cursor.map base64Encode)))) := by
  constructor
  · intro conn proj integ lu eid limit rd cursor now db h
    by_cases hc : cursorInvalid db.tcg_teams (fun t => t.id_tcg_team)
        (fun t => t.id_connection) conn cursor = true
    · simp [getTeams, hc, resIsOk] at h
    · cases hE : (if rd then
          attachRemoteDataList (fun o => o.id)
            (fun o d => { o with remote_data := some d }) db
            ((splitPage (fun t => t.id_tcg_team) limit
              (pageFetch (fun t => t.id_tcg_team) (fun t => t.created_at)
                (db.tcg_teams.filter (fun t => t.id_connection == conn))
                limit cursor)).1.map (unifyTeamRow db))
        else Except.ok ((splitPage (fun t => t.id_tcg_team) limit
              (pageFetch (fun t => t.id_tcg_team) (fun t => t.created_at)
                (db.tcg_teams.filter (fun t => t.id_connection == conn))
                limit cursor)).1.map (unifyTeamRow db))) with
      | error e => simp [getTeams, hc, hE, resIsOk] at h
      | ok res =>
        have hids : res.map (fun o => o.id)
            = ((splitPage (fun t => t.id_tcg_team) limit
                (pageFetch (fun t => t.id_tcg_team) (fun t => t.created_at)
                  (db.tcg_teams.filter (fun t => t.id_connection == conn))
                  limit cursor)).1.map (unifyTeamRow db)).map (fun o => o.id) := by
          cases rd with
          | true =>
            rw [if_pos rfl] at hE
            exact attachRemoteDataList_map_id (fun o => o.id)
              (fun o d => { o with remote_data := some d }) (fun x d => rfl) db
              _ res hE
          | false =>
            rw [if_neg (by simp)] at hE
            injection hE with h2
            rw [h2]
        refine ⟨?_, ?_, ?_⟩
        · simp only [getTeams, hc, hE]
          simp [resVal?, hids, splitPage_eq, List.map_map, Function.comp,
            unifyTeamRow]
        · simp only [getTeams, hc, hE]
          simp [resVal?, splitPage_eq]
        · simp only [getTeams, hc, hE]
          simp [resVal?]
  · intro conn proj integ lu eid limit rd cursor now db h
    by_cases hc : cursorInvalid db.tcg_contacts (fun c => c.id_tcg_contact)
        (fun c => c.id_connection) conn cursor = true
    · simp [getContacts, hc, resIsOk] at h
    · cases hE : (if rd then
          attachRemoteDataList (fun o => o.id)
            (fun o d => { o with remote_data := some d }) db
            ((splitPage (fun c => c.id_tcg_contact) limit
              (pageFetch (fun c => c.id_tcg_contact) (fun c => c.created_at)
                (db.tcg_contacts.filter (fun c => c.id_connection == conn))
                limit cursor)).1.map (unifyContactRow db))
        else Except.ok ((splitPage (fun c => c.id_tcg_contact) limit
              (pageFetch (fun c => c.id_tcg_contact) (fun c => c.created_at)
                (db.tcg_contacts.filter (fun c => c.id_connection == conn))
                limit cursor)).1.map (unifyContactRow db))) with
      | error e => simp [getContacts, hc, hE, resIsOk] at h
      | ok res =>
        have hids : res.map (fun o => o.id)
            = ((splitPage (fun c => c.id_tcg_contact) limit
                (pageFetch (fun c => c.id_tcg_contact) (fun c => c.created_at)
                  (db.tcg_contacts.filter (fun c => c.id_connection == conn))
                  limit cursor)).1.map (unifyContactRow db)).map (fun o => o.id) := by
          cases rd with
          | true =>
            rw [if_pos rfl] at hE
            exact attachRemoteDataList_map_id (fun o => o.id)
              (fun o d => { o with remote_data := some d }) (fun x d => rfl) db
              _ res hE
          | false =>
            rw [if_neg (by simp)] at hE
            injection hE with h2
            rw [h2]
        refine ⟨?_, ?_, ?_⟩
        · simp only [getContacts, hc, hE]
          simp [resVal?, hids, splitPage_eq, List.map_map, Function.comp,
            unifyContactRow]
        · simp only [getContacts, hc, hE]
          simp [resVal?, splitPage_eq]
        · simp only [getContacts, hc, hE]
          simp [resVal?]

/-- Witness for C7: a successful teams list over two teams with limit 1
and a successful contacts list over two contacts with limit 2 satisfy the
page-mechanics characterization. -/
theorem c7_list_page_mechanics_witness :
    (let F := pageFetch (fun t => t.id_tcg_team) (fun t => t.created_at)
        (dbTwoTeams.tcg_teams.filter (fun t => t.id_connection == "c")) 1 none
     ((resVal? (getTeams "c" "p" "zendesk" "lu1" 1 false none "e1" 100
          dbTwoTeams)).map (fun p => p.data.map (fun o => o.id))
       = some ((if F.length == 1 + 1 then F.dropLast else F).map
           (fun t => t.id_tcg_team)))
     ∧ ((resVal? (getTeams "c" "p" "zendesk" "lu1" 1 false none "e1" 100
          dbTwoTeams)).map (fun p => p.next_cursor)
       = some (if F.length == 1 + 1 then
             F.getLast?.map (fun t => base64Encode t.id_tcg_team)
           else none))
     ∧ ((resVal? (getTeams "c" "p" "zendesk" "lu1" 1 false none "e1" 100
          dbTwoTeams)).map (fun p => p.prev_cursor)
       = some ((none : Option String).map base64Encode)))
    ∧ (let F := pageFetch (fun c => c.id_tcg_contact) (fun c => c.created_at)
        (dbTwoContacts.tcg_contacts.filter (fun c => c.id_connection == "c"))
        2 none
     ((resVal? (getContacts "c" "p" "zendesk" "lu1" 2 false none "e1" 100
          dbTwoContacts)).map (fun p => p.data.map (fun o => o.id))
       = some ((if F.length == 2 + 1 then F.dropLast else F).map
           (fun c => c.id_tcg_contact)))
     ∧ ((resVal? (getContacts "c" "p" "zendesk" "lu1" 2 false none "e1" 100
          dbTwoContacts)).map (fun p => p.next_cursor)
       = some (if F.length == 2 + 1 then
             F.getLast?.map (fun c => base64Encode c.id_tcg_contact)
           else none))
     ∧ ((resVal? (getContacts "c" "p" "zendesk" "lu1" 2 false none "e1" 100
          dbTwoContacts)).map (fun p => p.prev_cursor)
       = some ((none : Option String).map base64Encode))) :=
  ⟨c7_list_page_mechanics.1 "c" "p" "zendesk" "lu1" "e1" 1 false none 100
      dbTwoTeams (by decide),
   c7_list_page_mechanics.2 "c" "p" "zendesk" "lu1" "e1" 2 false none 100
      dbTwoContacts (by decide)⟩

/-- Claim C3, amended: the ticket upsert locates the existing record by
(remote_id, connection_id) while the attachment upsert locates it by
(file_name, connection_id); neither lookup reads the internal id. A match
updates the located record in place, touching modified_at (the ticket
update also rewrites the internal id, see C2), and keeps the record count;
otherwise a record carrying the caller-supplied fresh internal id is
appended. -/
theorem c3_upsert_keys_amended :
    (∀ (tk : UnifiedTicket) (conn newId : String) (now : Nat) (db : Db)
        (r : Ticket),
      db.tcg_tickets.find? (ticketMatches tk conn) = some r →
      saveOrUpdateTicket tk conn newId now db
        = Res.ok r.id_tcg_ticket
            { db with tcg_tickets := db.tcg_tickets.map (fun t =>
                if t.id_tcg_ticket == r.id_tcg_ticket then
                  { t with id_tcg_ticket := newId, modified_at := now,
                           name := tk.name, status := tk.status,
                           priority := tk.priority, source := tk.source,
                           remote_id := tk.remote_id, id_connection := conn }
                else t) })
    ∧ (∀ (tk : UnifiedTicket) (conn newId : String) (now : Nat) (db : Db),
      db.tcg_tickets.find? (ticketMatches tk conn) = none →
      saveOrUpdateTicket tk conn newId now db
        = Res.ok newId
            { db with tcg_tickets := db.tcg_tickets ++
                [{ id_tcg_ticket := newId, name := tk.name, status := tk.status,
                   priority := tk.priority, source := tk.source,
                   remote_id := tk.remote_id, id_connection := conn,
                   created_at := now, modified_at := now }] })
    ∧ (∀ (inp : UnifiedAttachmentInput) (conn integ lu proj : String)
        (wf : Bool) (newId eid : String) (now : Nat) (db : Db)
        (u : LinkedUser) (r : Attachment),
      db.linked_users.find? (fun x => x.id_linked_user == lu) = some u →
      db.tcg_attachments.find?
          (fun a => a.file_name == inp.file_name && a.id_connection == conn)
        = some r →
      resIsOk (addAttachment inp conn integ lu proj false wf newId eid now db)
          = true
      ∧ (resVal? (addAttachment inp conn integ lu proj false wf newId eid now
          db)).map (fun o => o.id) = some r.id_tcg_attachment
      ∧ (resDb (addAttachment inp conn integ lu proj false wf newId eid now
          db)).tcg_attachments
        = db.tcg_attachments.map (fun a =>
            if a.id_tcg_attachment == r.id_tcg_attachment then
              { a with file_name := inp.file_name, uploader := lu,
                       modified_at := now }
            else a))
    ∧ (∀ (inp : UnifiedAttachmentInput) (conn integ lu proj : String)
        (wf : Bool) (newId eid : String) (now : Nat) (db : Db) (u : LinkedUser),
      db.linked_users.find? (fun x => x.id_linked_user == lu) = some u →
      db.tcg_attachments.find?
          (fun a => a.file_name == inp.file_name && a.id_connection == conn)
        = none →
      resIsOk (addAttachment inp conn integ lu proj false wf newId eid now db)
          = true
      ∧ (resVal? (addAttachment inp conn integ lu proj false wf newId eid now
          db)).map (fun o => o.id) = some newId
      ∧ (resDb (addAttachment inp conn integ lu proj false wf newId eid now
          db)).tcg_attachments
        = db.tcg_attachments ++
            [{ id_tcg_attachment := newId, file_name := inp.file_name,
               file_url := none, uploader := lu, remote_id := none,
               id_connection := conn, id_tcg_comment := none,
               id_tcg_ticket := none, created_at := now, modified_at := now }]) := by
  refine ⟨?_, ?_, ?_, ?_⟩
  · intro tk conn newId now db r h
    simp [saveOrUpdateTicket, h]
  · intro tk conn newId now db h
    simp [saveOrUpdateTicket, h]
  · intro inp conn integ lu proj wf newId eid now db u r hu hr
    have hmem : r ∈ db.tcg_attachments := List.mem_of_find?_eq_some hr
    have hsome : ((db.tcg_attachments.map (fun a =>
        if a.id_tcg_attachment == r.id_tcg_attachment then
          { a with file_name := inp.file_name, uploader := lu,
                   modified_at := now }
        else a)).find?
          (fun x => x.id_tcg_attachment == r.id_tcg_attachment)).isSome := by
      rw [List.find?_isSome]
      refine ⟨_, List.mem_map_of_mem _ hmem, ?_⟩
      simp
    obtain ⟨a2, ha2⟩ := Option.isSome_iff_exists.mp hsome
    have hbeq := List.find?_some ha2
    have ha2id : a2.id_tcg_attachment = r.id_tcg_attachment := by
      simp only [beq_iff_eq] at hbeq
      exact hbeq
    refine ⟨?_, ?_, ?_⟩
    · simp only [addAttachment, hu, hr, getAttachment, ha2]
      simp [resIsOk]
    · simp only [addAttachment, hu, hr, getAttachment, ha2]
      simp [resVal?, unifyAttachmentRow, ha2id]
    · simp only [addAttachment, hu, hr, getAttachment, ha2]
      simp [resDb, pushEvent, dispatchWebhook]
  · intro inp conn integ lu proj wf newId eid now db u hu hr
    have hsome : ((db.tcg_attachments ++
        [({ id_tcg_attachment := newId, file_name := inp.file_name,
            file_url := none, uploader := lu, remote_id := none,
            id_connection := conn, id_tcg_comment := none,
            id_tcg_ticket := none, created_at := now,
            modified_at := now } : Attachment)]).find?
          (fun x => x.id_tcg_attachment == newId)).isSome := by
      rw [List.find?_isSome]
      refine ⟨_, List.mem_append_right _ (List.mem_singleton_self _), ?_⟩
      simp
    obtain ⟨a2, ha2⟩ := Option.isSome_iff_exists.mp hsome
    have hbeq := List.find?_some ha2
    have ha2id : a2.id_tcg_attachment = newId := by
      simp only [beq_iff_eq] at hbeq
      exact hbeq
    refine ⟨?_, ?_, ?_⟩
    · simp only [addAttachment, hu, hr, getAttachment, ha2]
      simp [resIsOk]
    · simp only [addAttachment, hu, hr, getAttachment, ha2]
      simp [resVal?, unifyAttachmentRow, ha2id]
    · simp only [addAttachment, hu, hr, getAttachment, ha2]
      simp [resDb, pushEvent, dispatchWebhook]

/-- Witness for C3: the ticket upsert updates stored ticket t1 on a
matching (remote_id, connection_id) and creates t1 on an empty store; the
attachment upsert updates a1 on a matching (file_name, connection_id) and
appends a fresh row for a new file name. -/
theorem c3_upsert_keys_amended_witness :
    saveOrUpdateTicket tkRt1 "c" "t2" 20 dbTicketStored
      = Res.ok tkStored.id_tcg_ticket
          { dbTicketStored with tcg_tickets :=
              dbTicketStored.tcg_tickets.map (fun t =>
                if t.id_tcg_ticket == tkStored.id_tcg_ticket then
                  { t with id_tcg_ticket := "t2", modified_at := 20,
                           name := tkRt1.name, status := tkRt1.status,
                           priority := tkRt1.priority, source := tkRt1.source,
                           remote_id := tkRt1.remote_id, id_connection := "c" }
                else t) }
    ∧ saveOrUpdateTicket tkRt1 "c" "t1" 10 {}
      = Res.ok "t1"
          { ({} : Db) with tcg_tickets := ({} : Db).tcg_tickets ++
              [{ id_tcg_ticket := "t1", name := tkRt1.name,
                 status := tkRt1.status, priority := tkRt1.priority,
                 source := tkRt1.source, remote_id := tkRt1.remote_id,
                 id_connection := "c", created_at := 10, modified_at := 10 }] }
    ∧ (resIsOk (addAttachment { file_name := "a.txt" } "c" "zendesk" "lu1"
          "p1" false false "a2" "e1" 5 dbOneAttachment) = true
       ∧ (resVal? (addAttachment { file_name := "a.txt" } "c" "zendesk" "lu1"
            "p1" false false "a2" "e1" 5 dbOneAttachment)).map (fun o => o.id)
          = some attA1.id_tcg_attachment
       ∧ (resDb (addAttachment { file_name := "a.txt" } "c" "zendesk" "lu1"
            "p1" false false "a2" "e1" 5 dbOneAttachment)).tcg_attachments
          = dbOneAttachment.tcg_attachments.map (fun a =>
              if a.id_tcg_attachment == attA1.id_tcg_attachment then
                { a with file_name := "a.txt", uploader := "lu1",
                         modified_at := 5 }
              else a))
    ∧ (resIsOk (addAttachment { file_name := "b.txt" } "c" "zendesk" "lu1"
          "p1" false false "a2" "e1" 5 dbOneAttachment) = true
       ∧ (resVal? (addAttachment { file_name := "b.txt" } "c" "zendesk" "lu1"
            "p1" false false "a2" "e1" 5 dbOneAttachment)).map (fun o => o.id)
          = some "a2"
       ∧ (resDb (addAttachment { file_name := "b.txt" } "c" "zendesk" "lu1"
            "p1" false false "a2" "e1" 5 dbOneAttachment)).tcg_attachments
          = dbOneAttachment.tcg_attachments ++
              [{ id_tcg_attachment := "a2", file_name := "b.txt",
                 file_url := none, uploader := "lu1", remote_id := none,
                 id_connection := "c", id_tcg_comment := none,
                 id_tcg_ticket := none, created_at := 5, modified_at := 5 }]) :=
  ⟨c3_upsert_keys_amended.1 tkRt1 "c" "t2" 20 dbTicketStored tkStored
      (by decide),
   c3_upsert_keys_amended.2.1 tkRt1 "c" "t1" 10 {} (by decide),
   c3_upsert_keys_amended.2.2.1 { file_name := "a.txt" } "c" "zendesk" "lu1"
      "p1" false "a2" "e1" 5 dbOneAttachment luRow attA1 (by decide) (by decide),
   c3_upsert_keys_amended.2.2.2 { file_name := "b.txt" } "c" "zendesk" "lu1"
      "p1" false "a2" "e1" 5 dbOneAttachment luRow (by decide) (by decide)⟩

end Panora
